import Mathlib

/-!
Verification of the core systems of `dungeon_of_madness` (`src/main.rs`):
the wall-code generator and spawn handler (`attempt_spawn_level`), the
level-name parser (`parse_level_code`), the start-hall bootstrap
(`wait_for_start_hall`), and the movement/collision resolver
(`player_keyboard_commands`).

Modelling conventions:
- `f32` world coordinates are modelled by `ℚ`.  Every coordinate the
  theorems below touch (multiples of 144, 72, 90, 0, 1) is exactly
  representable in `f32`, and the arithmetic on them (`+`, `*` by such
  values) is exact, so the rational model agrees with the float code on
  all claim-relevant inputs.  The only non-dyadic constant,
  `FRAC_1_SQRT_2`, is modelled by the exact rational value of the `f32`
  constant `core::f32::consts::FRAC_1_SQRT_2` (0x3F3504F3).
- Rust `panic!` / `expect` is modelled by `Option.none` (for
  `parse_level_code`) and `Except.error ()` (for the spawn handler).
- The random draw `rand.next_lim_u16(15)` (a value in `[0, 14]`) is
  passed in explicitly as a natural-number parameter.
- `shieldtank`'s `QueryByGlobalBounds::single_by_location` is modelled
  as: exactly one loaded level whose (inclusive) bounds contain the
  point, following the `single` naming convention; theorems that depend
  on this query carry a uniqueness hypothesis so that they hold under
  any reasonable multi-match tie-break as well.
-/

/-- A 2D vector over `ℚ`, modelling Bevy's `Vec2` (`f32` pair). -/
structure Vec2 where
  x : ℚ
  y : ℚ
deriving DecidableEq

/-- Componentwise vector addition. -/
def Vec2.add (a b : Vec2) : Vec2 := ⟨a.x + b.x, a.y + b.y⟩

/-- Scalar multiplication `v * k` (componentwise). -/
def Vec2.scale (a : Vec2) (k : ℚ) : Vec2 := ⟨a.x * k, a.y * k⟩

/-- Negation of a vector. -/
def Vec2.neg (a : Vec2) : Vec2 := ⟨-a.x, -a.y⟩

/-- Constant `LEVEL_SIZE: f32 = 144.0` from the source. -/
def LEVEL_SIZE : ℚ := 144

/-- Constant `LEVEL_UP: Vec2 = Vec2::new(0.0, LEVEL_SIZE)`. -/
def LEVEL_UP : Vec2 := ⟨0, LEVEL_SIZE⟩

/-- Constant `LEVEL_RIGHT: Vec2 = Vec2::new(LEVEL_SIZE, 0.0)`. -/
def LEVEL_RIGHT : Vec2 := ⟨LEVEL_SIZE, 0⟩

/-- Constant `LEVEL_DOWN: Vec2 = Vec2::new(0.0, -LEVEL_SIZE)`. -/
def LEVEL_DOWN : Vec2 := ⟨0, -LEVEL_SIZE⟩

/-- Constant `LEVEL_LEFT: Vec2 = Vec2::new(-LEVEL_SIZE, 0.0)`. -/
def LEVEL_LEFT : Vec2 := ⟨-LEVEL_SIZE, 0⟩

/-- Constant `WALL_UP: u16 = 0x1`. -/
def WALL_UP : Nat := 0x1

/-- Constant `WALL_RIGHT: u16 = 0x2`. -/
def WALL_RIGHT : Nat := 0x2

/-- Constant `WALL_DOWN: u16 = 0x4`. -/
def WALL_DOWN : Nat := 0x4

/-- Constant `WALL_LEFT: u16 = 0x8`. -/
def WALL_LEFT : Nat := 0x8

/-- Constant `PLAYER_MOVE_SPEED: f32 = 90.0`. -/
def PLAYER_MOVE_SPEED : ℚ := 90

/-- Constant `PROJECT_FILE: &str`. -/
def PROJECT_FILE : String := "ldtk/dungeon_of_madness.ldtk"

/-- Exact rational value of the `f32` constant `FRAC_1_SQRT_2`
(bit pattern 0x3F3504F3, i.e. 11863283 / 2^24). -/
def FRAC_1_SQRT_2 : ℚ := 11863283 / 16777216

/-- An axis-aligned world-space rectangle (the `ShieldtankWorldBounds`
of a loaded level), stored as min/max corners. -/
structure Rect where
  min : Vec2
  max : Vec2
deriving DecidableEq

/-- Inclusive containment test on all four edges, as the spec states
for `QueryByGlobalBounds` ("inclusive for all bounds"). -/
def Rect.containsPt (r : Rect) (p : Vec2) : Bool :=
  decide (r.min.x ≤ p.x) && decide (p.x ≤ r.max.x) &&
  decide (r.min.y ≤ p.y) && decide (p.y ≤ r.max.y)

/-- A loaded level: its world bounds and its LDtk identifier (name). -/
structure Level where
  bounds : Rect
  name : String
deriving DecidableEq

/-- Model of `QueryByGlobalBounds::single_by_location`: `some level`
when exactly one loaded level's bounds contain the point, `none`
otherwise (no match, or an ambiguous multi-match). -/
def single_by_location (levels : List Level) (p : Vec2) : Option Level :=
  match levels.filter (fun l => l.bounds.containsPt p) with
  | [l] => some l
  | _ => none

/-- Model of `QueryByGlobalBounds::any`: does any loaded level's
bounds contain the point. -/
def levelsAny (levels : List Level) (p : Vec2) : Bool :=
  levels.any (fun l => l.bounds.containsPt p)

/-- Is `c` an ASCII decimal digit. -/
def isAsciiDigit (c : Char) : Bool := decide ('0' ≤ c) && decide (c ≤ '9')

/-- Numeric value of a list of ASCII digit characters (most significant
first), as accumulated by an integer parser. -/
def digitsVal (cs : List Char) : Nat :=
  cs.foldl (fun acc c => 10 * acc + (c.toNat - 48)) 0

/-- Model of Rust's `str::parse::<u16>`: an optional single leading
`'+'`, then one or more ASCII digits, value at most 65535; anything
else (empty string, other characters, a `'-'` sign, overflow) is a
parse error, modelled as `none`. -/
def rustParseU16 (cs : List Char) : Option Nat :=
  let ds := match cs with
    | '+' :: rest => rest
    | other => other
  if ds ≠ [] ∧ ds.all isAsciiDigit then
    if digitsVal ds ≤ 65535 then some (digitsVal ds) else none
  else none

/-- Model of `parse_level_code` (src/main.rs:114).  `none` models a
panic: the byte-slice panic when the name is shorter than 6 bytes, the
`expect` on an unparseable suffix, the `panic!` on a code outside
`0..15`, and the `panic!` on any other name.  (Comparing the first six
*characters* to `"Level_"` is equivalent to the source's first-six-
*bytes* comparison: the first six bytes equal `"Level_"` exactly when
the first six characters do, and every mismatch — including a slice
that would panic on a UTF-8 boundary — yields a panic, i.e. `none`.) -/
def parse_level_code (s : String) : Option Nat :=
  if s = "Start_Hall" then some 0
  else if s.data.take 6 = ['L', 'e', 'v', 'e', 'l', '_'] then
    match rustParseU16 (s.data.drop 6) with
    | some code => if code < 15 then some code else none
    | none => none
  else none

/-- Model of the closure `fix_rand_by_code` (src/main.rs:375): for a
known neighbor code, force-clear this chunk's bit toward the neighbor
when the neighbor's opposite bit is 0, force-set it when it is 1. -/
def fix_rand_by_code (rand : Nat) (code : Option Nat) (wall opposite_wall : Nat) : Nat :=
  match code with
  | none => rand
  | some c => if c &&& opposite_wall = 0 then rand &&& (wall ^^^ 0xF) else rand ||| wall

/-- The wall-code generation of `attempt_spawn_level` (src/main.rs:372-390):
the random draw `r`, then the four `fix_rand_by_code` calls in source
order (up, right, down, left). -/
def generateCode (r : Nat) (up right down left : Option Nat) : Nat :=
  fix_rand_by_code
    (fix_rand_by_code
      (fix_rand_by_code
        (fix_rand_by_code r up WALL_UP WALL_DOWN)
        right WALL_RIGHT WALL_LEFT)
      down WALL_DOWN WALL_UP)
    left WALL_LEFT WALL_RIGHT

/-- The asset label built at src/main.rs:393:
`format!("{PROJECT_FILE}#world:Dungeon/Level_{rand}")`. -/
def new_level_asset_label (code : Nat) : String :=
  PROJECT_FILE ++ "#world:Dungeon/Level_" ++ Nat.repr code

/-- Constant `CENTER_OFFSET: Vec2 = Vec2::new(LEVEL_SIZE / 2.0, -LEVEL_SIZE / 2.0)`
(src/main.rs:337). -/
def CENTER_OFFSET : Vec2 := ⟨LEVEL_SIZE / 2, -(LEVEL_SIZE / 2)⟩

/-- Neighbor-code lookup in `attempt_spawn_level`: `.ok none` when no
level occupies the sampled point, `.ok (some code)` when exactly one
does and its name parses, `.error ()` when the name fails to parse
(a panic in the source). -/
def lookupCode (levels : List Level) (p : Vec2) : Except Unit (Option Nat) :=
  match single_by_location levels p with
  | none => Except.ok none
  | some l =>
    match parse_level_code l.name with
    | some c => Except.ok (some c)
    | none => Except.error ()

/-- Model of the observer `attempt_spawn_level` (src/main.rs:324-401).
Inputs: the loaded levels, the random draw `r`, and the event's anchor
point.  Output: `.ok none` for the early-return no-op (a level already
occupies the target cell center), `.ok (some (label, anchor))` for a
spawn of the level asset `label` placed at `anchor`, `.error ()` for a
panic while parsing a neighbor's name. -/
def attempt_spawn_level (levels : List Level) (r : Nat) (anchor : Vec2) :
    Except Unit (Option (String × Vec2)) :=
  let center := anchor.add CENTER_OFFSET
  if (single_by_location levels center).isSome then Except.ok none
  else
    match lookupCode levels (center.add LEVEL_UP),
          lookupCode levels (center.add LEVEL_RIGHT),
          lookupCode levels (center.add LEVEL_DOWN),
          lookupCode levels (center.add LEVEL_LEFT) with
    | Except.ok up, Except.ok right, Except.ok down, Except.ok left =>
      Except.ok (some (new_level_asset_label (generateCode r up right down left), anchor))
    | _, _, _, _ => Except.error ()

/-- The two-state `GameState` of the source. -/
inductive GameState where
  | Loading
  | Playing
deriving DecidableEq

/-- The start hall is spawned in `setup` (src/main.rs:152-158) with
`Transform::default()`, i.e. at the world origin. -/
def startHallTranslation : Vec2 := ⟨0, 0⟩

/-- The state in which `wait_for_start_hall` is scheduled to run
(src/main.rs:543-546: `run_if(in_state(GameState::Loading))`). -/
def wait_for_start_hall_run_state : GameState := GameState.Loading

/-- Model of `wait_for_start_hall` (src/main.rs:254-267): the list of
`AttemptSpawnLevel` anchors triggered, in order, and the next state. -/
def wait_for_start_hall : List Vec2 × GameState :=
  ([LEVEL_UP, LEVEL_RIGHT, LEVEL_DOWN, LEVEL_LEFT], GameState.Playing)

/-- The sprite-flip match of `player_keyboard_commands`
(src/main.rs:441-445): keys are `(up, right, down, left)`; the three
right-bearing recognized combinations set `flip_x(false)`, the three
left-bearing ones set `flip_x(true)`, everything else leaves the flip
state untouched. -/
def flipFor (keys : Bool × Bool × Bool × Bool) (flip : Bool) : Bool :=
  match keys with
  | (true, true, false, false) => false
  | (false, true, false, false) => false
  | (false, true, true, false) => false
  | (true, false, false, true) => true
  | (false, false, false, true) => true
  | (false, false, true, true) => true
  | _ => flip

/-- The direction-normal match of `player_keyboard_commands`
(src/main.rs:448-458): the eight recognized combinations map to unit
headings (diagonals scaled by `FRAC_1_SQRT_2`); any other combination
returns `none` (the source's early `return`). -/
def dirOf (keys : Bool × Bool × Bool × Bool) : Option Vec2 :=
  match keys with
  | (true, false, false, false) => some ⟨0, 1⟩
  | (true, true, false, false) => some ⟨FRAC_1_SQRT_2, FRAC_1_SQRT_2⟩
  | (false, true, false, false) => some ⟨1, 0⟩
  | (false, true, true, false) => some ⟨FRAC_1_SQRT_2, -FRAC_1_SQRT_2⟩
  | (false, false, true, false) => some ⟨0, -1⟩
  | (false, false, true, true) => some ⟨-FRAC_1_SQRT_2, -FRAC_1_SQRT_2⟩
  | (false, false, false, true) => some ⟨-1, 0⟩
  | (true, false, false, true) => some ⟨-FRAC_1_SQRT_2, FRAC_1_SQRT_2⟩
  | _ => none

/-- Model of `player_keyboard_commands` (src/main.rs:403-485).
Inputs: elapsed seconds `dt`, the `(up, right, down, left)` pressed
states, the obstacle grid (`grid_value_at`, `none` = passable), the
loaded levels, the skeleton's half extents, its current position, and
its current `flip_x` state.  Output: the new `(position, flip_x)`.
The source's order is kept: the loaded-level guard first, then the
sprite flip, then the direction match (early return), then the
candidate position and the two sensors. -/
def player_keyboard_commands (dt : ℚ) (keys : Bool × Bool × Bool × Bool)
    (grid : Vec2 → Option Int) (levels : List Level) (halfW halfH : ℚ)
    (pos : Vec2) (flip : Bool) : Vec2 × Bool :=
  if !(levelsAny levels pos) then (pos, flip)
  else
    let flip2 := flipFor keys flip
    match dirOf keys with
    | none => (pos, flip2)
    | some d =>
      let newLoc := pos.add ((d.scale dt).scale PLAYER_MOVE_SPEED)
      let sensor1 := (grid (newLoc.add ⟨-halfW, halfH⟩)).isNone
      let sensor2 := (grid (newLoc.add ⟨halfW, halfH⟩)).isNone
      if sensor1 && sensor2 then (newLoc, flip2) else (pos, flip2)

/-- The asset label of the start hall loaded in `setup` (src/main.rs:154):
`format!("{PROJECT_FILE}#world:Dungeon/Start_Hall")`. -/
def start_hall_asset_label : String := PROJECT_FILE ++ "#world:Dungeon/Start_Hall"

/-- Fixture: a single large loaded level containing the origin, for
concrete movement evaluations. -/
def bigLevel : Level := ⟨⟨⟨-1000, -1000⟩, ⟨1000, 1000⟩⟩, "Start_Hall"⟩

/-- Fixture: the start hall as loaded in `setup`, anchored at the
origin and extending one `LEVEL_SIZE` down-right. -/
def startHallLevel : Level := ⟨⟨⟨0, -144⟩, ⟨144, 0⟩⟩, "Start_Hall"⟩

/-- Fixture: a loaded neighbor above the origin cell whose south edge
is a wall (`Level_4`, `WALL_DOWN` set). -/
def lvlAbove : Level := ⟨⟨⟨0, 0⟩, ⟨144, 144⟩⟩, "Level_4"⟩

/-- Fixture: a loaded neighbor to the right of the origin cell whose
west edge is a wall (`Level_8`, `WALL_LEFT` set). -/
def lvlRightOf : Level := ⟨⟨⟨144, -144⟩, ⟨288, 0⟩⟩, "Level_8"⟩

/-- Fixture: a loaded neighbor below the origin cell whose north edge
is a wall (`Level_1`, `WALL_UP` set). -/
def lvlBelow : Level := ⟨⟨⟨0, -288⟩, ⟨144, -144⟩⟩, "Level_1"⟩

/-- Fixture: a loaded neighbor to the left of the origin cell whose
east edge is a wall (`Level_2`, `WALL_RIGHT` set). -/
def lvlLeftOf : Level := ⟨⟨⟨-144, -144⟩, ⟨0, 0⟩⟩, "Level_2"⟩

/-- Bits 0..3 of the mask `0xF` are all set. -/
theorem testBit_fifteen (i : Nat) (hi : i < 4) : Nat.testBit 0xF i = true := by
  interval_cases i <;> decide

/-- A `fix_rand_by_code` call for wall bit `w` leaves every other low
bit of the draw unchanged. -/
theorem fix_preserve (r : Nat) (code : Option Nat) (w ow i : Nat) (hi : i < 4)
    (hw : w.testBit i = false) :
    (fix_rand_by_code r code w ow).testBit i = r.testBit i := by
  match code with
  | none => rfl
  | some c =>
    unfold fix_rand_by_code
    by_cases h : c &&& ow = 0 <;>
      simp [h, Nat.testBit_land, Nat.testBit_lor, Nat.testBit_xor, hw, testBit_fifteen i hi]

/-- A `fix_rand_by_code` call with a known neighbor code forces the
wall bit `w`: cleared when the neighbor's opposite bit is 0, set when
it is 1, regardless of the draw. -/
theorem fix_force (r c w ow i : Nat) (hi : i < 4) (hw : w.testBit i = true) :
    (fix_rand_by_code r (some c) w ow).testBit i = if c &&& ow = 0 then false else true := by
  unfold fix_rand_by_code
  by_cases h : c &&& ow = 0 <;>
    simp [h, Nat.testBit_land, Nat.testBit_lor, Nat.testBit_xor, hw, testBit_fifteen i hi]

/-- The forced value of a wall bit is exactly the neighbor's opposite
bit, when the opposite-wall mask is the single bit `2 ^ j`. -/
theorem forced_eq (c j w : Nat) (hw : w = 2 ^ j) :
    (if c &&& w = 0 then false else true) = c.testBit j := by
  subst hw
  rw [Nat.and_two_pow]
  cases h : c.testBit j <;> simp [h, Nat.pos_iff_ne_zero.mp (Nat.two_pow_pos j)]

/-- The generated code's up bit equals a known up-neighbor's down bit. -/
theorem generate_testBit_up (r c : Nat) (right down left : Option Nat) :
    (generateCode r (some c) right down left).testBit 0 = c.testBit 2 := by
  unfold generateCode
  rw [fix_preserve _ left WALL_LEFT WALL_RIGHT 0 (by decide) (by decide),
    fix_preserve _ down WALL_DOWN WALL_UP 0 (by decide) (by decide),
    fix_preserve _ right WALL_RIGHT WALL_LEFT 0 (by decide) (by decide),
    fix_force r c WALL_UP WALL_DOWN 0 (by decide) (by decide)]
  exact forced_eq c 2 WALL_DOWN (by decide)

/-- The generated code's right bit equals a known right-neighbor's
left bit. -/
theorem generate_testBit_right (r c : Nat) (up down left : Option Nat) :
    (generateCode r up (some c) down left).testBit 1 = c.testBit 3 := by
  unfold generateCode
  rw [fix_preserve _ left WALL_LEFT WALL_RIGHT 1 (by decide) (by decide),
    fix_preserve _ down WALL_DOWN WALL_UP 1 (by decide) (by decide),
    fix_force _ c WALL_RIGHT WALL_LEFT 1 (by decide) (by decide)]
  exact forced_eq c 3 WALL_LEFT (by decide)

/-- The generated code's down bit equals a known down-neighbor's up
bit. -/
theorem generate_testBit_down (r c : Nat) (up right left : Option Nat) :
    (generateCode r up right (some c) left).testBit 2 = c.testBit 0 := by
  unfold generateCode
  rw [fix_preserve _ left WALL_LEFT WALL_RIGHT 2 (by decide) (by decide),
    fix_force _ c WALL_DOWN WALL_UP 2 (by decide) (by decide)]
  exact forced_eq c 0 WALL_UP (by decide)

/-- The generated code's left bit equals a known left-neighbor's right
bit. -/
theorem generate_testBit_left (r c : Nat) (up right down : Option Nat) :
    (generateCode r up right down (some c)).testBit 3 = c.testBit 1 := by
  unfold generateCode
  rw [fix_force _ c WALL_LEFT WALL_RIGHT 3 (by decide) (by decide)]
  exact forced_eq c 1 WALL_RIGHT (by decide)

/-- C1: for every random draw and every combination of 0-4 known
cardinal neighbor codes, the wall code generated in
`attempt_spawn_level` agrees with every known neighbor on the shared
edge: the new code's bit for a direction equals the neighbor's
opposite-direction bit (force-cleared when the neighbor's opposite bit
is 0/open, force-set when it is 1/wall), regardless of the draw `r`. -/
theorem c1_shared_edge_bits_agree (r : Nat) (up right down left : Option Nat) :
    (∀ c, up = some c → (generateCode r up right down left).testBit 0 = c.testBit 2) ∧
    (∀ c, right = some c → (generateCode r up right down left).testBit 1 = c.testBit 3) ∧
    (∀ c, down = some c → (generateCode r up right down left).testBit 2 = c.testBit 0) ∧
    (∀ c, left = some c → (generateCode r up right down left).testBit 3 = c.testBit 1) := by
  refine ⟨fun c hc => ?_, fun c hc => ?_, fun c hc => ?_, fun c hc => ?_⟩ <;> subst hc
  · exact generate_testBit_up r c right down left
  · exact generate_testBit_right r c up down left
  · exact generate_testBit_down r c up right left
  · exact generate_testBit_left r c up right down

/-- Witness for C1 at a concrete draw and neighbor combination. -/
theorem c1_shared_edge_bits_agree_witness :
    (generateCode 5 (some 3) (some 0) none (some 8)).testBit 0 = (3 : Nat).testBit 2 ∧
    (generateCode 5 (some 3) (some 0) none (some 8)).testBit 1 = (0 : Nat).testBit 3 ∧
    (generateCode 5 (some 3) (some 0) none (some 8)).testBit 3 = (8 : Nat).testBit 1 :=
  ⟨(c1_shared_edge_bits_agree 5 (some 3) (some 0) none (some 8)).1 3 rfl,
   (c1_shared_edge_bits_agree 5 (some 3) (some 0) none (some 8)).2.1 0 rfl,
   (c1_shared_edge_bits_agree 5 (some 3) (some 0) none (some 8)).2.2.2 8 rfl⟩

/-- One `fix_rand_by_code` step keeps the draw below 16 (it only
clears bits or sets a single low wall bit). -/
theorem fix_lt_sixteen (r : Nat) (code : Option Nat) (w ow : Nat) (hr : r < 16)
    (hw : w < 16) : fix_rand_by_code r code w ow < 16 := by
  match code with
  | none => exact hr
  | some c =>
    unfold fix_rand_by_code
    by_cases h : c &&& ow = 0 <;> simp [h]
    · exact lt_of_le_of_lt Nat.and_le_left hr
    · have h16 : (16 : Nat) = 2 ^ 4 := by norm_num
      rw [h16] at hr hw ⊢
      exact Nat.or_lt_two_pow hr hw

/-- C2 counterexample: with draw 0 and the four neighbors `Level_4`,
`Level_8`, `Level_1`, `Level_2` (each walled toward the target cell),
the spawn handler produces the fully-walled code 15 and requests the
asset `Level_15`, contradicting the claim that the produced code
always lies in [0,14]. -/
theorem c2_counterexample_code_fifteen :
    generateCode 0 (some 4) (some 8) (some 1) (some 2) = 15 ∧
    ¬ generateCode 0 (some 4) (some 8) (some 1) (some 2) ≤ 14 ∧
    attempt_spawn_level [lvlAbove, lvlRightOf, lvlBelow, lvlLeftOf] 0 ⟨0, 0⟩ =
      Except.ok (some ("ldtk/dungeon_of_madness.ldtk#world:Dungeon/Level_15", ⟨0, 0⟩)) :=
  ⟨by decide, by decide, by with_unfolding_all rfl⟩

/-- C2 amended: the produced wall code always lies in [0,15]; with no
known neighbor it equals the draw, and the draw itself lies in [0,14],
so 15 can only arise from the forcing step (when every known neighbor
is walled toward the target), never from the draw alone. -/
theorem c2_amended_code_range (r : Nat) (up right down left : Option Nat)
    (hr : r ≤ 14) :
    generateCode r up right down left ≤ 15 ∧ generateCode r none none none none = r := by
  refine ⟨Nat.lt_succ_iff.mp ?_, rfl⟩
  unfold generateCode
  exact fix_lt_sixteen _ left WALL_LEFT WALL_RIGHT
    (fix_lt_sixteen _ down WALL_DOWN WALL_UP
      (fix_lt_sixteen _ right WALL_RIGHT WALL_LEFT
        (fix_lt_sixteen _ up WALL_UP WALL_DOWN (by omega) (by decide))
        (by decide))
      (by decide))
    (by decide)

/-- Witness for the amended C2 at a concrete draw and neighbors. -/
theorem c2_amended_code_range_witness :
    generateCode 7 (some 4) none (some 0) none ≤ 15 ∧
    generateCode 7 none none none none = 7 :=
  c2_amended_code_range 7 (some 4) none (some 0) none (by decide)

/-- C3 counterexample: the draw 0 is legal (`next_lim_u16(15)` draws
from [0,14]), and on the game's very first spawn attempt (only the
start hall loaded, target cell directly above it) it survives the
forcing step, so the handler requests the asset name `Level_0` — the
claim that code 0 is never generated for non-start chunks is false. -/
theorem c3_counterexample_level_zero :
    (0 : Nat) ≤ 14 ∧
    generateCode 0 none none (some 0) none = 0 ∧
    attempt_spawn_level [startHallLevel] 0 LEVEL_UP =
      Except.ok (some ("ldtk/dungeon_of_madness.ldtk#world:Dungeon/Level_0", LEVEL_UP)) :=
  ⟨by decide, by decide, by with_unfolding_all rfl⟩

/-- The asset label generated for a spawned level never equals the
reserved start hall's asset label: it always carries the `Level_`
name, which differs from `Start_Hall` at the character right after the
`#world:Dungeon/` prefix. -/
theorem label_ne_start_hall (code : Nat) :
    new_level_asset_label code ≠ start_hall_asset_label := by
  intro h
  have hd := congrArg (fun s : String => s.data[43]?) h
  simp only [new_level_asset_label, start_hall_asset_label] at hd
  rw [String.data_append] at hd
  rw [List.getElem?_append_left (by decide)] at hd
  exact absurd hd (by decide)

/-- C3 amended: the random draw lies in [0,14], which includes 0, so
code 0 and therefore the name `Level_0` can be generated for non-start
chunks (see the counterexample); what does hold is that the requested
name never collides with the reserved start name: every generated
asset label is of the `Level_` form and differs from the start hall's
`Start_Hall` label. -/
theorem c3_amended_no_start_name_collision (r : Nat) (up right down left : Option Nat) :
    new_level_asset_label (generateCode r up right down left) ≠ start_hall_asset_label :=
  label_ne_start_hall (generateCode r up right down left)

/-- Evaluation of `parse_level_code` on any name with the `Level_`
prefix: the suffix is parsed as a `u16` and range-checked against
`0..15`; both failures panic (`none`). -/
theorem parse_level_append (s : String) :
    parse_level_code ("Level_" ++ s) =
      match rustParseU16 s.data with
      | some code => if code < 15 then some code else none
      | none => none := by
  have hne : ("Level_" ++ s) ≠ "Start_Hall" := by
    intro h
    have hd := congrArg String.data h
    rw [String.data_append] at hd
    have h0 : ("Start_Hall").data.head? = some 'L' := by rw [← hd]; rfl
    exact absurd h0 (by decide)
  have hdata : ("Level_" ++ s).data = ("Level_").data ++ s.data := String.data_append _ _
  have h6 : ("Level_").data.length = 6 := rfl
  unfold parse_level_code
  rw [if_neg hne, hdata, List.take_left' h6, List.drop_left' h6, if_pos rfl]

/-- C8: `parse_level_code` returns 0 for `"Start_Hall"` and `n` for
`"Level_n"` with `n` in [0,14] (including non-canonical decimal
spellings of such `n`); every other name panics (modelled `none`):
a `Level_` name whose suffix parses to a value ≥ 15, a `Level_` name
whose suffix does not parse as a `u16`, and any name that is neither
`"Start_Hall"` nor `Level_`-prefixed. -/
theorem c8_parse_level_code_spec :
    parse_level_code "Start_Hall" = some 0 ∧
    (∀ n, n < 15 → parse_level_code ("Level_" ++ Nat.repr n) = some n) ∧
    (∀ s k, rustParseU16 s.data = some k → 15 ≤ k →
      parse_level_code ("Level_" ++ s) = none) ∧
    (∀ s, rustParseU16 s.data = none → parse_level_code ("Level_" ++ s) = none) ∧
    (∀ s, s ≠ "Start_Hall" → s.data.take 6 ≠ ("Level_").data →
      parse_level_code s = none) := by
  refine ⟨by decide, by decide, fun s k hk hk15 => ?_, fun s hs => ?_, fun s hs1 hs2 => ?_⟩
  · rw [parse_level_append, hk]
    show (if k < 15 then some k else none) = none
    exact if_neg (by omega)
  · rw [parse_level_append, hs]
  · unfold parse_level_code
    rw [if_neg hs1, if_neg hs2]

/-- Witness for C8 at concrete names: a canonical in-range name, an
out-of-range code, an unparseable suffix, and an unrelated name. -/
theorem c8_parse_level_code_spec_witness :
    parse_level_code ("Level_" ++ Nat.repr 7) = some 7 ∧
    parse_level_code ("Level_" ++ "20") = none ∧
    parse_level_code ("Level_" ++ "x") = none ∧
    parse_level_code "Bad_Name" = none :=
  ⟨c8_parse_level_code_spec.2.1 7 (by decide),
   c8_parse_level_code_spec.2.2.1 "20" 20 (by decide) (by decide),
   c8_parse_level_code_spec.2.2.2.1 "x" (by decide),
   c8_parse_level_code_spec.2.2.2.2 "Bad_Name" (by decide) (by decide)⟩

/-- When the actor stands inside a loaded level, the flip output of the
movement resolver is exactly the sprite-flip match on the key tuple,
whatever the obstacle grid and the collision outcome. -/
theorem player_flip_eq (dt : ℚ) (keys : Bool × Bool × Bool × Bool)
    (grid : Vec2 → Option Int) (levels : List Level) (hw hh : ℚ) (pos : Vec2)
    (flip : Bool) (hlvl : levelsAny levels pos = true) :
    (player_keyboard_commands dt keys grid levels hw hh pos flip).2 = flipFor keys flip := by
  cases h : dirOf keys
  · simp [player_keyboard_commands, hlvl, h]
  · simp only [player_keyboard_commands, hlvl, h, Bool.not_true, Bool.false_eq_true, if_false]
    split <;> rfl

/-- C4: with the actor inside a loaded chunk and a recognized direction
held, the move to the candidate position is all-or-nothing: if either
sensor point (candidate plus `(-half_width, +half_height)` or
`(+half_width, +half_height)`) reports occupied, the position is left
unchanged; if both report empty, the position becomes the candidate. -/
theorem c4_two_sensor_gate (dt : ℚ) (keys : Bool × Bool × Bool × Bool)
    (grid : Vec2 → Option Int) (levels : List Level) (hw hh : ℚ) (pos : Vec2)
    (flip : Bool) (d : Vec2) (hlvl : levelsAny levels pos = true)
    (hdir : dirOf keys = some d) :
    ((grid ((pos.add ((d.scale dt).scale PLAYER_MOVE_SPEED)).add ⟨-hw, hh⟩) ≠ none ∨
      grid ((pos.add ((d.scale dt).scale PLAYER_MOVE_SPEED)).add ⟨hw, hh⟩) ≠ none) →
      (player_keyboard_commands dt keys grid levels hw hh pos flip).1 = pos) ∧
    (grid ((pos.add ((d.scale dt).scale PLAYER_MOVE_SPEED)).add ⟨-hw, hh⟩) = none →
      grid ((pos.add ((d.scale dt).scale PLAYER_MOVE_SPEED)).add ⟨hw, hh⟩) = none →
      (player_keyboard_commands dt keys grid levels hw hh pos flip).1 =
        pos.add ((d.scale dt).scale PLAYER_MOVE_SPEED)) := by
  constructor
  · intro hocc
    rcases hocc with h | h
    · rcases hg : grid ((pos.add ((d.scale dt).scale PLAYER_MOVE_SPEED)).add ⟨-hw, hh⟩)
        with _ | v
      · exact absurd hg h
      · simp [player_keyboard_commands, hlvl, hdir, hg]
    · rcases hg : grid ((pos.add ((d.scale dt).scale PLAYER_MOVE_SPEED)).add ⟨hw, hh⟩)
        with _ | v
      · exact absurd hg h
      · simp [player_keyboard_commands, hlvl, hdir, hg]
  · intro h1 h2
    simp [player_keyboard_commands, hlvl, hdir, h1, h2]

/-- Witness for C4: an obstacle exactly at the top-left sensor point of
the candidate (move up from the origin) rejects the move outright even
though the top-right sensor is clear. -/
theorem c4_two_sensor_gate_witness :
    levelsAny [bigLevel] ⟨0, 0⟩ = true ∧
    dirOf (true, false, false, false) = some ⟨0, 1⟩ ∧
    (fun p => if p = (⟨-8, 98⟩ : Vec2) then some (1 : Int) else none)
      (((⟨0, 0⟩ : Vec2).add (((⟨0, 1⟩ : Vec2).scale 1).scale PLAYER_MOVE_SPEED)).add
        ⟨-8, 8⟩) ≠ none ∧
    (player_keyboard_commands 1 (true, false, false, false)
      (fun p => if p = (⟨-8, 98⟩ : Vec2) then some (1 : Int) else none)
      [bigLevel] 8 8 ⟨0, 0⟩ false).1 = ⟨0, 0⟩ :=
  ⟨by with_unfolding_all decide, rfl, by with_unfolding_all decide,
   (c4_two_sensor_gate 1 (true, false, false, false)
      (fun p => if p = (⟨-8, 98⟩ : Vec2) then some (1 : Int) else none)
      [bigLevel] 8 8 ⟨0, 0⟩ false ⟨0, 1⟩ (by with_unfolding_all decide) rfl).1
     (Or.inl (by with_unfolding_all decide))⟩

/-- C5: inside a loaded chunk with only "up" held, speed 90, elapsed
1.0 s and no obstacles, the position moves from (0,0) to (0,90); with
the conflicting "up"+"down" combination the position is unchanged. -/
theorem c5_up_heading_and_conflict :
    PLAYER_MOVE_SPEED = 90 ∧
    (player_keyboard_commands 1 (true, false, false, false) (fun _ => none)
      [bigLevel] 8 8 ⟨0, 0⟩ false).1 = ⟨0, 90⟩ ∧
    (player_keyboard_commands 1 (true, false, true, false) (fun _ => none)
      [bigLevel] 8 8 ⟨0, 0⟩ false).1 = ⟨0, 0⟩ :=
  ⟨rfl, by with_unfolding_all decide, by with_unfolding_all decide⟩

/-- C9 counterexample: with up+right+down held together (a rightward
component present, but not one of the eight recognized combinations)
the facing is left unchanged at mirrored, not set to unmirrored as the
claim requires. -/
theorem c9_counterexample_three_keys :
    (player_keyboard_commands 1 (true, true, true, false) (fun _ => none)
      [bigLevel] 8 8 ⟨0, 0⟩ true).2 = true := by
  with_unfolding_all decide

/-- C9 amended: inside a loaded chunk, the facing becomes unmirrored
exactly for the three recognized right-bearing combinations (right,
up+right, down+right), mirrored exactly for the three recognized
left-bearing ones (left, up+left, down+left), and is left unchanged
for every other key combination — including up or down alone, but also
any unrecognized combination that holds a rightward or leftward key
(e.g. three keys at once, or left and right together). -/
theorem c9_amended_facing_rules (dt : ℚ) (grid : Vec2 → Option Int)
    (levels : List Level) (hw hh : ℚ) (pos : Vec2) (flip : Bool) (u r d l : Bool)
    (hlvl : levelsAny levels pos = true) :
    (((u, r, d, l) = (true, true, false, false) ∨
      (u, r, d, l) = (false, true, false, false) ∨
      (u, r, d, l) = (false, true, true, false)) →
      (player_keyboard_commands dt (u, r, d, l) grid levels hw hh pos flip).2 = false) ∧
    (((u, r, d, l) = (true, false, false, true) ∨
      (u, r, d, l) = (false, false, false, true) ∨
      (u, r, d, l) = (false, false, true, true)) →
      (player_keyboard_commands dt (u, r, d, l) grid levels hw hh pos flip).2 = true) ∧
    (¬((u, r, d, l) = (true, true, false, false) ∨
      (u, r, d, l) = (false, true, false, false) ∨
      (u, r, d, l) = (false, true, true, false) ∨
      (u, r, d, l) = (true, false, false, true) ∨
      (u, r, d, l) = (false, false, false, true) ∨
      (u, r, d, l) = (false, false, true, true)) →
      (player_keyboard_commands dt (u, r, d, l) grid levels hw hh pos flip).2 = flip) := by
  refine ⟨fun hcase => ?_, fun hcase => ?_, fun hcase => ?_⟩ <;>
    rw [player_flip_eq dt (u, r, d, l) grid levels hw hh pos flip hlvl] <;>
    cases u <;> cases r <;> cases d <;> cases l <;> simp_all [flipFor]

/-- Witness for the amended C9: right alone unmirrors a mirrored
sprite. -/
theorem c9_amended_facing_rules_witness :
    levelsAny [bigLevel] ⟨0, 0⟩ = true ∧
    (player_keyboard_commands 1 (false, true, false, false) (fun _ => none)
      [bigLevel] 8 8 ⟨0, 0⟩ true).2 = false :=
  ⟨by with_unfolding_all decide,
   (c9_amended_facing_rules 1 (fun _ => none) [bigLevel] 8 8 ⟨0, 0⟩ true
      false true false false (by with_unfolding_all decide)).1
     (Or.inr (Or.inl rfl))⟩

/-- C10: the facing output of a movement evaluation does not depend on
the obstacle grid at all (the flip is applied before the sensors are
read), and inside a loaded chunk each of the six recognized side-
bearing combinations forces its facing value under every grid,
including grids that reject the candidate move. -/
theorem c10_facing_independent_of_collision (dt : ℚ)
    (keys : Bool × Bool × Bool × Bool) (grid grid2 : Vec2 → Option Int)
    (levels : List Level) (hw hh : ℚ) (pos : Vec2) (flip : Bool) :
    (player_keyboard_commands dt keys grid levels hw hh pos flip).2 =
      (player_keyboard_commands dt keys grid2 levels hw hh pos flip).2 ∧
    (levelsAny levels pos = true →
      ((keys = (true, true, false, false) ∨ keys = (false, true, false, false) ∨
        keys = (false, true, true, false)) →
        (player_keyboard_commands dt keys grid levels hw hh pos flip).2 = false) ∧
      ((keys = (true, false, false, true) ∨ keys = (false, false, false, true) ∨
        keys = (false, false, true, true)) →
        (player_keyboard_commands dt keys grid levels hw hh pos flip).2 = true)) := by
  obtain ⟨u, r, d, l⟩ := keys
  constructor
  · by_cases hlvl : levelsAny levels pos = true
    · rw [player_flip_eq dt (u, r, d, l) grid levels hw hh pos flip hlvl,
        player_flip_eq dt (u, r, d, l) grid2 levels hw hh pos flip hlvl]
    · have hlvl2 : levelsAny levels pos = false := by
        cases h : levelsAny levels pos
        · rfl
        · exact absurd h hlvl
      simp [player_keyboard_commands, hlvl2]
  · intro hlvl
    refine ⟨fun hcase => ?_, fun hcase => ?_⟩ <;>
      rw [player_flip_eq dt (u, r, d, l) grid levels hw hh pos flip hlvl] <;>
      cases u <;> cases r <;> cases d <;> cases l <;> simp_all [flipFor]

/-- Witness for C10: down+right with a grid that rejects every
candidate still unmirrors the sprite while the position stays put. -/
theorem c10_facing_independent_of_collision_witness :
    levelsAny [bigLevel] ⟨0, 0⟩ = true ∧
    (player_keyboard_commands 1 (false, true, true, false) (fun _ => some 1)
      [bigLevel] 8 8 ⟨0, 0⟩ true).2 = false :=
  ⟨by with_unfolding_all decide,
   ((c10_facing_independent_of_collision 1 (false, true, true, false)
      (fun _ => some 1) (fun _ => none) [bigLevel] 8 8 ⟨0, 0⟩ true).2
     (by with_unfolding_all decide)).1 (Or.inr (Or.inr rfl))⟩

/-- C6: when the start hall's bounds become known, the bootstrap system
(which runs in the Loading state) triggers exactly four spawn-request
events, one per cardinal direction, anchored one chunk edge length
(144 units) away from the start chunk's location at the origin — at
(0,144), (144,0), (0,-144), (-144,0) — and transitions the state to
Playing. -/
theorem c6_start_bootstrap :
    wait_for_start_hall.1 =
      [startHallTranslation.add ⟨0, LEVEL_SIZE⟩,
       startHallTranslation.add ⟨LEVEL_SIZE, 0⟩,
       startHallTranslation.add ⟨0, -LEVEL_SIZE⟩,
       startHallTranslation.add ⟨-LEVEL_SIZE, 0⟩] ∧
    wait_for_start_hall.1 = [⟨0, 144⟩, ⟨144, 0⟩, ⟨0, -144⟩, ⟨-144, 0⟩] ∧
    wait_for_start_hall.1.length = 4 ∧
    LEVEL_SIZE = 144 ∧
    wait_for_start_hall_run_state = GameState.Loading ∧
    wait_for_start_hall.2 = GameState.Playing := by
  refine ⟨?_, ?_, rfl, rfl, rfl, rfl⟩ <;> with_unfolding_all decide

/-- C7: when exactly one loaded level's bounds contain the target cell
center (the event anchor plus `(72, -72)`), the spawn handler is a
no-op: it returns early without requesting any asset, spawning any
level, or signalling an error.  (The uniqueness hypothesis is the
spec's own data-model invariant that at most one chunk claims a cell
center.) -/
theorem c7_spawn_dedup (levels : List Level) (r : Nat) (anchor : Vec2)
    (h : (levels.filter
      (fun l => l.bounds.containsPt (anchor.add CENTER_OFFSET))).length = 1) :
    attempt_spawn_level levels r anchor = Except.ok none := by
  obtain ⟨l, hl⟩ := List.length_eq_one.mp h
  unfold attempt_spawn_level
  simp [single_by_location, hl]

/-- Witness for C7: the cell occupied by the loaded start hall is not
respawned. -/
theorem c7_spawn_dedup_witness :
    ([startHallLevel].filter
      (fun l => l.bounds.containsPt ((⟨0, 0⟩ : Vec2).add CENTER_OFFSET))).length = 1 ∧
    attempt_spawn_level [startHallLevel] 3 ⟨0, 0⟩ = Except.ok none :=
  ⟨by with_unfolding_all decide,
   c7_spawn_dedup [startHallLevel] 3 ⟨0, 0⟩ (by with_unfolding_all decide)⟩
